import Mathlib

/-!
Shallow embedding of the AI Ticket Scheduler triage pipeline
(`utils/triage.py`), its training driver (`train.py`) and the ticket
creation endpoint (`api.py`), together with theorems settling the
specification claims about them.

Text is modelled as `String`; Python `str.lower()` is modelled by
mapping `Char.toLower` over the characters (faithful on the ASCII
keywords the heuristic uses), and Python `needle in hay` (substring
containment) by `strContains`.
-/

/-- Python `str.lower()` on the character list of a string. -/
def lowerChars (s : String) : List Char :=
  s.data.map Char.toLower

/-- Python substring containment `needle in hay`: some suffix of `hay`
starts with `needle`. -/
def strContains (hay needle : List Char) : Bool :=
  hay.tails.any fun t => needle.isPrefixOf t

/-- `triage.py` line 64: the high-priority keyword list. -/
def high_priority_keywords : List String :=
  ["urgent", "critical", "emergency", "down", "outage",
   "not working", "broken", "security", "breach"]

/-- `triage.py` line 68: the medium-priority keyword list. -/
def medium_priority_keywords : List String :=
  ["issue", "problem", "error", "bug", "slow",
   "performance", "help"]

/-- A fitted sklearn vectorizer, abstracted: `transform` maps text to a
feature vector of type `V`. -/
structure Vectorizer (V : Type) where
  transform : String → V

/-- A fitted sklearn classifier, abstracted: `predict` maps a feature
vector to a category label. -/
structure MLModel (V : Type) where
  predict : V → String

/-- The unpickled artifact dictionary: `data.get('model')` and
`data.get('vectorizer')` each may be absent (`None`). -/
structure ArtifactData (V : Type) where
  model : Option (MLModel V)
  vectorizer : Option (Vectorizer V)

/-- The file system as seen by `load_model`: a path either holds an
artifact dictionary or does not exist. -/
def FS (V : Type) := String → Option (ArtifactData V)

/-- State of a `TicketTriager` object (`triage.py` lines 11-20). -/
structure TicketTriager (V : Type) where
  model_path : String
  model : Option (MLModel V)
  vectorizer : Option (Vectorizer V)

/-- `TicketTriager.load_model` (`triage.py` lines 22-30): if the file
exists, read the dictionary and set both fields with `.get`; otherwise
only print a warning, leaving the state unchanged. -/
def TicketTriager.load_model (fs : FS V) (self : TicketTriager V) :
    TicketTriager V :=
  match fs self.model_path with
  | some data => { self with model := data.model, vectorizer := data.vectorizer }
  | none => self

/-- `TicketTriager.__init__` (`triage.py` lines 11-20): start with both
fields `None`, then call `load_model`. -/
def TicketTriager.init (fs : FS V) (model_path : String) : TicketTriager V :=
  TicketTriager.load_model fs
    { model_path := model_path, model := none, vectorizer := none }

/-- `TicketTriager.predict_category` (`triage.py` lines 32-49) with the
object state passed and returned explicitly (the method performs no
assignment to `self`, which the returned state records). -/
def TicketTriager.predict_categoryS (self : TicketTriager V)
    (ticket_text : String) : String × TicketTriager V :=
  match self.model, self.vectorizer with
  | some model, some vectorizer =>
      (model.predict (vectorizer.transform ticket_text), self)
  | some _, none => ("uncategorized", self)
  | none, _ => ("uncategorized", self)

/-- The value returned by `predict_category`. -/
def TicketTriager.predict_category (self : TicketTriager V)
    (ticket_text : String) : String :=
  (self.predict_categoryS ticket_text).1

/-- `TicketTriager.predict_priority` (`triage.py` lines 51-79): ordered
keyword heuristic over the lower-cased text. -/
def TicketTriager.predict_priority (_self : TicketTriager V)
    (ticket_text : String) : String :=
  let ticket_lower := lowerChars ticket_text
  if high_priority_keywords.any (fun keyword => strContains ticket_lower keyword.data) then
    "high"
  else if medium_priority_keywords.any (fun keyword => strContains ticket_lower keyword.data) then
    "medium"
  else
    "low"

/-- Result dictionary of `triage_ticket`. -/
structure TriageResult where
  category : String
  priority : String
  deriving DecidableEq

/-- `TicketTriager.triage_ticket` (`triage.py` lines 81-99): combine
title and description with one space, predict both fields. -/
def TicketTriager.triage_ticket (self : TicketTriager V)
    (title description : String) : TriageResult :=
  let ticket_text := title ++ " " ++ description
  { category := self.predict_category ticket_text,
    priority := self.predict_priority ticket_text }

/-- A triager whose artifact file was absent: both fields `None`. -/
def noModelTriager : TicketTriager Unit :=
  { model_path := "models/triage_model.pkl", model := none, vectorizer := none }

/-- C1: for every input text, `predict_priority` follows the reference
three-case definition: `high` iff the lower-cased text contains some
high-priority keyword as a substring (the high check dominates);
`medium` iff no high keyword matches but some medium keyword does;
`low` iff neither set matches. -/
theorem predict_priority_three_case {V : Type} (tr : TicketTriager V) (text : String) :
    (tr.predict_priority text = "high" ↔
      ∃ k ∈ high_priority_keywords, strContains (lowerChars text) k.data = true) ∧
    (tr.predict_priority text = "medium" ↔
      (¬ ∃ k ∈ high_priority_keywords, strContains (lowerChars text) k.data = true) ∧
      ∃ k ∈ medium_priority_keywords, strContains (lowerChars text) k.data = true) ∧
    (tr.predict_priority text = "low" ↔
      (¬ ∃ k ∈ high_priority_keywords, strContains (lowerChars text) k.data = true) ∧
      ¬ ∃ k ∈ medium_priority_keywords, strContains (lowerChars text) k.data = true) := by
  simp only [TicketTriager.predict_priority, List.any_eq_true]
  split_ifs with h1 h2
  · refine ⟨iff_of_true rfl h1, ?_, ?_⟩
    · exact iff_of_false (by decide) fun h => h.1 h1
    · exact iff_of_false (by decide) fun h => h.1 h1
  · refine ⟨iff_of_false (by decide) h1, iff_of_true rfl ⟨h1, h2⟩,
      iff_of_false (by decide) fun h => h.2 h2⟩
  · exact ⟨iff_of_false (by decide) h1, iff_of_false (by decide) fun h => h2 h.2,
      iff_of_true rfl ⟨h1, h2⟩⟩

/-- C3: `triage_ticket title description` returns exactly the category
predicted on `title ++ " " ++ description` and the priority predicted on
the same combined text, each computed by its own predictor. -/
theorem triage_ticket_composition {V : Type} (tr : TicketTriager V)
    (title description : String) :
    (tr.triage_ticket title description).category
        = tr.predict_category (title ++ " " ++ description) ∧
    (tr.triage_ticket title description).priority
        = tr.predict_priority (title ++ " " ++ description) :=
  ⟨rfl, rfl⟩

/-- C4: `predict_priority` is total (a Lean function, it never raises)
and always returns one of `low`, `medium`, `high`; on the empty string
no keyword matches and it returns `low`. -/
theorem predict_priority_total {V : Type} (tr : TicketTriager V) (text : String) :
    (tr.predict_priority text = "low" ∨ tr.predict_priority text = "medium" ∨
      tr.predict_priority text = "high") ∧
    tr.predict_priority "" = "low" := by
  constructor
  · simp only [TicketTriager.predict_priority]
    split_ifs <;> simp
  · rfl

/-- C9: plain substring matching fires on keywords embedded inside
other words: `download` and `shutdown` contain `down` and are classified
`high`; `debug` contains `bug` and is classified `medium`. -/
theorem substring_false_positives :
    noModelTriager.predict_priority "Please download the report" = "high" ∧
    noModelTriager.predict_priority "shutdown completed" = "high" ∧
    noModelTriager.predict_priority "debug session" = "medium" :=
  ⟨rfl, rfl, rfl⟩

/-- Helper: whenever the model field or the vectorizer field is `None`,
`predict_category` returns the sentinel. -/
theorem predict_category_none_field {V : Type} (s : TicketTriager V) (text : String)
    (h : s.model = none ∨ s.vectorizer = none) :
    s.predict_category text = "uncategorized" := by
  rcases s with ⟨p, mo, ve⟩
  rcases mo with _ | m
  · rfl
  · rcases ve with _ | v
    · rfl
    · simp at h

/-- Helper: when the artifact file is absent, `load_model` leaves the
freshly initialised state unchanged, with both fields `None`. -/
theorem init_missing_file {V : Type} (fs : FS V) (path : String) (h : fs path = none) :
    TicketTriager.init fs path = ⟨path, none, none⟩ := by
  unfold TicketTriager.init TicketTriager.load_model
  simp [h]

/-- C2: if the model file does not exist at the configured path, then
for every text `predict_category` returns `"uncategorized"` (and, being
a total Lean function, never raises), and `predict_priority` does not
depend on the triager state at all. -/
theorem missing_artifact_uncategorized {V : Type} (fs : FS V) (path text : String)
    (h : fs path = none) :
    (TicketTriager.init fs path).predict_category text = "uncategorized" ∧
    ∀ tr1 tr2 : TicketTriager V, tr1.predict_priority text = tr2.predict_priority text := by
  refine ⟨?_, fun tr1 tr2 => rfl⟩
  rw [init_missing_file fs path h]
  exact predict_category_none_field _ text (Or.inl rfl)

/-- Witness for C2 at a concrete empty file system. -/
theorem missing_artifact_uncategorized_witness :
    (TicketTriager.init (V := Unit) (fun _ => none) "models/triage_model.pkl").predict_category
        "server down" = "uncategorized" :=
  (missing_artifact_uncategorized (fun _ => none) "models/triage_model.pkl" "server down" rfl).1

/-- A concrete fitted triager used as a witness input. -/
def fittedTriagerExample : TicketTriager Unit :=
  { model_path := "models/triage_model.pkl",
    model := some { predict := fun _ => "account" },
    vectorizer := some { transform := fun _ => () } }

/-- C5: with a fitted vectorizer and classifier loaded, a call to
`predict_category` leaves the triager state unchanged, and a repeated
call on the post-call state returns the identical output. -/
theorem predict_category_deterministic {V : Type} (tr : TicketTriager V)
    (m : MLModel V) (v : Vectorizer V) (text : String)
    (_hm : tr.model = some m) (_hv : tr.vectorizer = some v) :
    (tr.predict_categoryS text).2 = tr ∧
    ((tr.predict_categoryS text).2.predict_categoryS text).1
      = (tr.predict_categoryS text).1 := by
  have hfr : ∀ s : TicketTriager V, (s.predict_categoryS text).2 = s := by
    intro s
    rcases s with ⟨p, mo, ve⟩
    rcases mo with _ | m2
    · rfl
    · rcases ve with _ | v2 <;> rfl
  exact ⟨hfr tr, by rw [hfr tr]⟩

/-- Witness for C5 at a concrete fitted triager. -/
theorem predict_category_deterministic_witness :
    (fittedTriagerExample.predict_categoryS "login issue").2 = fittedTriagerExample ∧
    ((fittedTriagerExample.predict_categoryS "login issue").2.predict_categoryS
        "login issue").1 = (fittedTriagerExample.predict_categoryS "login issue").1 :=
  predict_category_deterministic fittedTriagerExample
    { predict := fun _ => "account" } { transform := fun _ => () } "login issue" rfl rfl

/-- C8: if the artifact file exists but its dictionary lacks the model
or the vectorizer entry (either read off as `None` by `.get`),
`predict_category` still returns the sentinel for every text. -/
theorem partial_artifact_uncategorized {V : Type} (fs : FS V) (path text : String)
    (d : ArtifactData V) (hfs : fs path = some d)
    (hmiss : d.model = none ∨ d.vectorizer = none) :
    (TicketTriager.init fs path).predict_category text = "uncategorized" := by
  have hstate : TicketTriager.init fs path = ⟨path, d.model, d.vectorizer⟩ := by
    unfold TicketTriager.init TicketTriager.load_model
    simp [hfs]
  rw [hstate]
  exact predict_category_none_field _ text hmiss

/-- Witness for C8 at a concrete artifact holding only a vectorizer. -/
theorem partial_artifact_uncategorized_witness :
    (TicketTriager.init (V := Unit)
        (fun _ => some { model := none, vectorizer := some { transform := fun _ => () } })
        "models/triage_model.pkl").predict_category "printer problem" = "uncategorized" :=
  partial_artifact_uncategorized
    (fun _ => some { model := none, vectorizer := some { transform := fun _ => () } })
    "models/triage_model.pkl" "printer problem"
    { model := none, vectorizer := some { transform := fun _ => () } } rfl (Or.inl rfl)

/-- Request body of the REST `POST /tickets` endpoint (`api.py` lines
19-25): category and priority are optional. -/
structure TicketCreate where
  title : String
  description : String
  category : Option String := none
  priority : Option String := none
  status : Option String := some "open"

/-- Row stored by `db_manager.create_ticket` for the fields the endpoint
passes through (`api.py` lines 86-92). -/
structure CreatedTicket where
  title : String
  description : String
  category : Option String
  priority : Option String
  status : Option String

/-- `create_ticket` endpoint (`api.py` lines 66-103), returning the
stored ticket together with the number of calls made to
`triager.triage_ticket` (0 or 1). -/
def create_ticket {V : Type} (triager : TicketTriager V) (ticket : TicketCreate) :
    CreatedTicket × Nat :=
  if ticket.category.isNone || ticket.priority.isNone then
    let triage_result := triager.triage_ticket ticket.title ticket.description
    let category :=
      match ticket.category with
      | none => some triage_result.category
      | some c => some c
    let priority :=
      match ticket.priority with
      | none => some triage_result.priority
      | some p => some p
    ({ title := ticket.title, description := ticket.description,
       category := category, priority := priority, status := ticket.status }, 1)
  else
    ({ title := ticket.title, description := ticket.description,
       category := ticket.category, priority := ticket.priority,
       status := ticket.status }, 0)

/-- C10: the endpoint stores a caller-supplied category or priority
unchanged, fills only an omitted field from the triager, and invokes the
triager exactly when at least one of the two fields is omitted. -/
theorem create_ticket_frame {V : Type} (tr : TicketTriager V) (ticket : TicketCreate) :
    (∀ c, ticket.category = some c → (create_ticket tr ticket).1.category = some c) ∧
    (∀ p, ticket.priority = some p → (create_ticket tr ticket).1.priority = some p) ∧
    (ticket.category = none → (create_ticket tr ticket).1.category
        = some (tr.triage_ticket ticket.title ticket.description).category) ∧
    (ticket.priority = none → (create_ticket tr ticket).1.priority
        = some (tr.triage_ticket ticket.title ticket.description).priority) ∧
    ((create_ticket tr ticket).2 = 0 ↔ ticket.category.isSome ∧ ticket.priority.isSome) := by
  rcases ticket with ⟨title, description, cat, pri, status⟩
  rcases cat with _ | c <;> rcases pri with _ | p <;>
    simp [create_ticket]

/-- Witness for C10: with category supplied and priority omitted, the
category is stored unchanged, the priority is auto-triaged, and the
triager is invoked. -/
theorem create_ticket_frame_witness :
    (create_ticket noModelTriager
        { title := "VPN", description := "it is down", category := some "network" }).1.category
      = some "network" :=
  (create_ticket_frame noModelTriager
      { title := "VPN", description := "it is down", category := some "network" }).1
    "network" rfl

/-- A row of the training CSV: title, description, category label. -/
structure TicketRow where
  title : String
  description : String
  category : String

/-- File system as seen by the training driver: a path either holds the
parsed CSV rows or does not exist. -/
def DataFS := String → Option (List TicketRow)

/-- Default training data path (`train.py` line 11). -/
def default_data_path : String := "sample_data/synthetic_tickets.csv"

/-- Output path of the serialized artifact (`train.py` line 98). -/
def model_output_path : String := "models/triage_model.pkl"

/-- `load_training_data` (`train.py` lines 11-27): `None` when the file
does not exist, otherwise the parsed rows. -/
def load_training_data (fs : DataFS) (data_path : String) : Option (List TicketRow) :=
  match fs data_path with
  | none => none
  | some df => some df

/-- `prepare_features` (`train.py` lines 30-45): the text is
`title ++ " " ++ description`, the label is `category`; kept paired so
the split can stratify by label. -/
def prepare_features (df : List TicketRow) : List (String × String) :=
  df.map fun row => (row.title ++ " " ++ row.description, row.category)

/-- The seed actually used by a splitting call: the supplied
`random_state` when present, the ambient entropy otherwise. -/
def effectiveSeed (random_state : Option Nat) (entropy : Nat) : Nat :=
  match random_state with
  | some s => s
  | none => entropy

/-- Test-side size of a class of `n` members at `test_pct` percent: its
proportional share, but at least one member. -/
def test_count (test_pct n : Nat) : Nat := max 1 (n * test_pct / 100)

/-- The members of one label class, in order of appearance. -/
def classMembers (lab : String) (rows : List (α × String)) : List α :=
  (rows.filter fun r => r.2 == lab).map Prod.fst

/-- The distinct labels of the data, in order of first occurrence. -/
def classLabels (rows : List (α × String)) : List String :=
  (rows.map Prod.snd).dedup

/-- Test part of one class: rotate by the seed, take the test share. -/
def splitTestClass (test_pct seed : Nat) (members : List α) : List α :=
  (members.rotate seed).take (test_count test_pct (members.rotate seed).length)

/-- Train part of one class: the remaining members. -/
def splitTrainClass (test_pct seed : Nat) (members : List α) : List α :=
  (members.rotate seed).drop (test_count test_pct (members.rotate seed).length)

/-- Modelled from the spec: `sklearn.model_selection.train_test_split`
is third-party library code not present in this repository; `train.py`
line 134 calls it with `test_size=0.2, random_state=42, stratify=y`.
Following the spec ("split data into train/test (e.g., 80/20,
stratified by label so every class is represented in both splits)";
"reproducibly given a fixed random seed"), every label class is rotated
by the effective seed and then divided, the test share to the test
side and the rest to the train side; a supplied `random_state` makes
the ambient entropy irrelevant. Returns (train, test). -/
def train_test_split (test_pct : Nat) (random_state : Option Nat) (entropy : Nat)
    (rows : List (α × String)) : List (α × String) × List (α × String) :=
  let seed := effectiveSeed random_state entropy
  (((classLabels rows).map fun lab =>
      (splitTrainClass test_pct seed (classMembers lab rows)).map fun a => (a, lab)).flatten,
   ((classLabels rows).map fun lab =>
      (splitTestClass test_pct seed (classMembers lab rows)).map fun a => (a, lab)).flatten)

/-- Modelled from the spec: sklearn `accuracy_score` as reported by
`evaluate_model` (`train.py` lines 71-95), given as the pair (number of
matching predictions, test-set size). -/
def accuracy_score (y_true y_pred : List String) : Nat × Nat :=
  ((y_true.zip y_pred).countP fun p => p.1 == p.2, y_true.length)

/-- Observable steps of a training run. -/
inductive TrainEvent
  | loaded (n : Nat)
  | fitted
  | evaluated (correct total : Nat)
  | saved (path : String)
  deriving DecidableEq

/-- The serialized artifact written by `save_model`. -/
structure SavedArtifact (M : Type) where
  path : String
  model : M

/-- `main` (`train.py` lines 119-153): load, prepare, split with
`test_size=0.2, random_state=42, stratify=y`, fit, evaluate, save.
`fit` abstracts `train_model` (TF-IDF + MultinomialNB fitting,
third-party sklearn code) and `predictM` the fitted model's `predict`;
`entropy` models the ambient randomness a library call could otherwise
draw on. Returns the event trace and the artifact written, `none` when
the run stops before fitting. -/
def train_main {M : Type} (fit : List String → List String → M)
    (predictM : M → String → String) (entropy : Nat) (fs : DataFS) :
    List TrainEvent × Option (SavedArtifact M) :=
  match load_training_data fs default_data_path with
  | none => ([], none)
  | some df =>
      let Xy := prepare_features df
      let split := train_test_split 20 (some 42) entropy Xy
      let model := fit (split.1.map Prod.fst) (split.1.map Prod.snd)
      let y_pred := split.2.map fun r => predictM model r.1
      let acc := accuracy_score (split.2.map Prod.snd) y_pred
      ([TrainEvent.loaded df.length, TrainEvent.fitted,
        TrainEvent.evaluated acc.1 acc.2, TrainEvent.saved model_output_path],
       some { path := model_output_path, model := model })

/-- Helper: a sum over a duplicate-free list of a map that vanishes away
from `lab` is the value at `lab`. -/
theorem sum_map_single {l : List String} (hn : l.Nodup) {lab : String}
    (hmem : lab ∈ l) (T : String → Nat) :
    (l.map fun x => if x = lab then T x else 0).sum = T lab := by
  induction l with
  | nil => cases hmem
  | cons a as ih =>
    rcases List.nodup_cons.mp hn with ⟨hna, hnas⟩
    rcases List.mem_cons.mp hmem with h | h
    · subst h
      have hz : (as.map fun x => if x = lab then T x else 0).sum = 0 := by
        apply List.sum_eq_zero
        intro y hy
        rcases List.mem_map.mp hy with ⟨x, hx, hxy⟩
        rw [← hxy, if_neg]
        intro hxa
        exact hna (hxa ▸ hx)
      simp [hz]
    · have hne : a ≠ lab := fun he => hna (he ▸ h)
      simp only [List.map_cons, List.sum_cons, if_neg hne]
      rw [ih hnas h]
      omega

/-- Helper: counting the pairs labelled `lab` in flattened per-class
blocks picks out exactly the block of `lab`. -/
theorem countP_label_flatten {α : Type} {labs : List String} (hn : labs.Nodup)
    {lab : String} (hmem : lab ∈ labs) (f : String → List α) :
    (((labs.map fun lab2 => (f lab2).map fun a => (a, lab2)).flatten).countP
        fun r => r.2 == lab) = (f lab).length := by
  rw [List.countP_flatten, List.map_map]
  have hcast : (List.countP fun r : α × String => r.2 == lab) ∘
      (fun lab2 => (f lab2).map fun a => (a, lab2))
      = fun lab2 => if lab2 = lab then (f lab2).length else 0 := by
    funext lab2
    simp only [Function.comp_apply, List.countP_map]
    by_cases h : lab2 = lab
    · subst h
      simp [Function.comp_def]
    · simp [Function.comp_def, h]
  rw [hcast]
  exact sum_map_single hn hmem _

/-- Helper: length of the test part of one class. -/
theorem splitTestClass_length {α : Type} (test_pct seed : Nat) (members : List α) :
    (splitTestClass test_pct seed members).length
      = min (test_count test_pct members.length) members.length := by
  simp [splitTestClass, List.length_rotate, List.length_take]

/-- Helper: length of the train part of one class. -/
theorem splitTrainClass_length {α : Type} (test_pct seed : Nat) (members : List α) :
    (splitTrainClass test_pct seed members).length
      = members.length - test_count test_pct members.length := by
  simp [splitTrainClass, List.length_rotate, List.length_drop]

/-- Helper: per-class counts of the stratified split: each class puts
`min (test_count pct n) n` rows on the test side and the remaining
`n - test_count pct n` on the train side. -/
theorem train_test_split_counts {α : Type} (test_pct : Nat) (rs : Option Nat)
    (e : Nat) (rows : List (α × String)) {lab : String}
    (hmem : lab ∈ rows.map Prod.snd) :
    ((train_test_split test_pct rs e rows).2.countP fun r => r.2 == lab)
        = min (test_count test_pct (classMembers lab rows).length)
            (classMembers lab rows).length ∧
    ((train_test_split test_pct rs e rows).1.countP fun r => r.2 == lab)
        = (classMembers lab rows).length
            - test_count test_pct (classMembers lab rows).length := by
  have hn : (classLabels rows).Nodup := List.nodup_dedup _
  have hm : lab ∈ classLabels rows := List.mem_dedup.mpr hmem
  constructor
  · rw [show (train_test_split test_pct rs e rows).2
        = ((classLabels rows).map fun lab2 =>
            (splitTestClass test_pct (effectiveSeed rs e) (classMembers lab2 rows)).map
              fun a => (a, lab2)).flatten from rfl]
    rw [countP_label_flatten hn hm]
    exact splitTestClass_length _ _ _
  · rw [show (train_test_split test_pct rs e rows).1
        = ((classLabels rows).map fun lab2 =>
            (splitTrainClass test_pct (effectiveSeed rs e) (classMembers lab2 rows)).map
              fun a => (a, lab2)).flatten from rfl]
    rw [countP_label_flatten hn hm]
    exact splitTrainClass_length _ _ _

/-- C6: the pipeline splits 80/20 stratified by label with a fixed
seed: a whole training run is independent of the ambient entropy
(random_state is pinned to 42, so the split and the reported accuracy
are reproducible); every class contributes its `test_count` share
(at least one member) to the test side and the rest to the train side,
so each class with at least two members appears in both splits. -/
theorem train_split_stratified_reproducible {M : Type}
    (fit : List String → List String → M) (predictM : M → String → String)
    (fs : DataFS) {α : Type} (rows : List (α × String)) (lab : String)
    (hmem : lab ∈ rows.map Prod.snd)
    (hsize : 2 ≤ (classMembers lab rows).length) :
    (∀ e1 e2 : Nat, train_main fit predictM e1 fs = train_main fit predictM e2 fs) ∧
    ((train_test_split 20 (some 42) 0 rows).2.countP fun r => r.2 == lab)
        = test_count 20 (classMembers lab rows).length ∧
    ((train_test_split 20 (some 42) 0 rows).1.countP fun r => r.2 == lab)
        = (classMembers lab rows).length - test_count 20 (classMembers lab rows).length ∧
    (∃ a, (a, lab) ∈ (train_test_split 20 (some 42) 0 rows).2) ∧
    (∃ a, (a, lab) ∈ (train_test_split 20 (some 42) 0 rows).1) := by
  have hcounts := train_test_split_counts 20 (some 42) 0 rows hmem
  have htc : test_count 20 (classMembers lab rows).length
      ≤ (classMembers lab rows).length := by
    unfold test_count
    omega
  have htest : ((train_test_split 20 (some 42) 0 rows).2.countP fun r => r.2 == lab)
      = test_count 20 (classMembers lab rows).length := by
    rw [hcounts.1]
    omega
  have hmemOf : ∀ l : List (α × String),
      0 < (l.countP fun r => r.2 == lab) → ∃ a, (a, lab) ∈ l := by
    intro l hl
    obtain ⟨r, hr, hrl⟩ := List.countP_pos_iff.mp hl
    refine ⟨r.1, ?_⟩
    have h2 : r.2 = lab := by simpa using hrl
    rw [show ((r.1, lab) : α × String) = r from by rw [← h2]]
    exact hr
  refine ⟨fun e1 e2 => rfl, htest, hcounts.2, ?_, ?_⟩
  · apply hmemOf
    rw [htest]
    unfold test_count
    omega
  · apply hmemOf
    rw [hcounts.2]
    unfold test_count
    omega

/-- Witness for C6: a four-row, two-class dataset, each class appearing
on the test side of the split. -/
theorem train_split_stratified_witness :
    ∃ a, (a, "hw") ∈ (train_test_split 20 (some 42) 0
        [("pc", "hw"), ("mouse", "hw"), ("app", "sw"), ("os", "sw")]).2 :=
  (train_split_stratified_reproducible (M := Unit) (fun _ _ => ()) (fun _ _ => "")
      (fun _ => none) [("pc", "hw"), ("mouse", "hw"), ("app", "sw"), ("os", "sw")] "hw"
      (by decide) (by decide)).2.2.2.1

/-- C7: when the training data file is absent, `load_training_data`
returns `None` and `main` returns at once: the event trace is empty (no
fit, no evaluation, no save) and no artifact is written. -/
theorem train_main_missing_data {M : Type} (fit : List String → List String → M)
    (predictM : M → String → String) (entropy : Nat) (fs : DataFS)
    (h : fs default_data_path = none) :
    load_training_data fs default_data_path = none ∧
    train_main fit predictM entropy fs = ([], none) := by
  have hl : load_training_data fs default_data_path = none := by
    unfold load_training_data
    rw [h]
  refine ⟨hl, ?_⟩
  unfold train_main
  rw [hl]

/-- Witness for C7 at a concrete empty file system. -/
theorem train_main_missing_data_witness :
    train_main (M := Unit) (fun _ _ => ()) (fun _ _ => "") 0 (fun _ => none)
      = ([], none) :=
  (train_main_missing_data (fun _ _ => ()) (fun _ _ => "") 0 (fun _ => none) rfl).2
